import Mathlib

set_option maxRecDepth 100000

/-!
Shallow embedding of the `AudioProcessor` pipeline coordinator from
`src/services/audioProcessor.ts` (MeetingPro).  The class state becomes an
explicit `ProcState` record threaded through each operation; the external
engine and services (ffmpeg, the transcription service, the analysis
service) are boundaries, so their outcomes are supplied as explicit
environment values.  Each operation returns its `Except` result together
with the final state, the list of engine side effects (`Event`) it
performed, and the list of progress callbacks it emitted.  Numbers are
modelled as `Rat`; JS string formatting of numbers is abstracted (the
`duration` detail keeps the rounded rational value rather than the
formatted text).
-/

-- type ProcessStage = 'converting' | 'transcribing' | 'analyzing'
inductive ProcessStage where
  | converting
  | transcribing
  | analyzing
  deriving DecidableEq, Repr

-- interface ProcessingProgress { converting; transcribing; analyzing : number }
structure ProcessingProgress where
  converting : ℚ
  transcribing : ℚ
  analyzing : ℚ
  deriving DecidableEq, Repr

-- interface ProcessingDetails (only the fields the coordinator writes are
-- modelled; `duration` keeps the rounded value Math.round(time*100)/100).
structure ProcessingDetails where
  bitrate : Option String := none
  duration : Option ℚ := none
  stage : Option String := none
  deriving DecidableEq, Repr

-- The AbortController of the run: only its signal.aborted flag is relevant.
structure AbortController where
  aborted : Bool
  deriving DecidableEq, Repr

-- Mutable fields of the AudioProcessor instance (the ffmpeg object itself is
-- represented by the `initialized` flag of the Engine Handle).
structure ProcState where
  initialized : Bool
  abortController : Option AbortController
  progress : ProcessingProgress
  deriving DecidableEq, Repr

-- One invocation of the onProgress callback: (stage, { ...this.progress }, details).
structure Callback where
  stage : ProcessStage
  snapshot : ProcessingProgress
  details : Option ProcessingDetails
  deriving DecidableEq, Repr

-- Engine / service side effects performed by an operation, in order.
inductive Event where
  | load
  | writeFile (name : String)
  | execTranscode (args : List String)
  | readFile (name : String)
  | rmFile (name : String)
  | netTranscribe (model lang : String)
  | netAnalyze (model system user : String)
  | terminate
  deriving DecidableEq, Repr

-- Result of an operation: Except result plus final state and traces.
structure RunOut (α : Type) where
  result : Except String α
  state : ProcState
  events : List Event
  callbacks : List Callback

def isOkE {ε α : Type} : Except ε α → Bool
  | Except.ok _ => true
  | Except.error _ => false

-- new AudioProcessor(onProgress): ffmpeg created but not loaded, no
-- controller, all progress slots 0.
def newProcessor : ProcState :=
  { initialized := false
    abortController := none
    progress := { converting := 0, transcribing := 0, analyzing := 0 } }

-- this.progress[stage] = v
def ProcessingProgress.set (p : ProcessingProgress) (st : ProcessStage) (v : ℚ) :
    ProcessingProgress :=
  match st with
  | ProcessStage.converting => { p with converting := v }
  | ProcessStage.transcribing => { p with transcribing := v }
  | ProcessStage.analyzing => { p with analyzing := v }

-- Math.max(a, b) and Math.min(a, b) on rationals (explicit conditionals so
-- that every application reduces).
def ratMax (a b : ℚ) : ℚ := if a ≤ b then b else a

def ratMin (a b : ℚ) : ℚ := if b ≤ a then b else a

-- Math.min(1, Math.max(0, value))
def clamp01 (v : ℚ) : ℚ := ratMin 1 (ratMax 0 v)

-- private updateProgress(stage, value, details): clamp, store, and emit the
-- spread copy { ...this.progress } to the consumer callback.
def updateProgress (s : ProcState) (st : ProcessStage) (value : ℚ)
    (details : Option ProcessingDetails) : ProcState × Callback :=
  let p := s.progress.set st (clamp01 value)
  ({ s with progress := p }, { stage := st, snapshot := p, details := details })

-- this.abortController?.signal.aborted (optional chaining: a missing
-- controller reads as not aborted).  `convertToWav` assigns a fresh
-- controller before its own read, so the `none` branch is unreachable there.
def signalAborted : Option AbortController → Bool
  | some c => c.aborted
  | none => false

def freshController : AbortController := { aborted := false }

-- async cancel(): abort + null the controller, terminate the engine and mark
-- the Engine Handle uninitialized.
def cancel (s : ProcState) : ProcState :=
  { s with abortController := none, initialized := false }

-- Substring test used for `error.message.includes(pat)`.
def tailsL : List Char → List (List Char)
  | [] => [[]]
  | c :: cs => (c :: cs) :: tailsL cs

def containsSub (s pat : String) : Bool :=
  (tailsL s.toList).any (fun t => pat.toList.isPrefixOf t)

-- message.match(/bitrate=\s*(\d+\.\d+|\d+)\s*kbits\/s/): try a match starting
-- at the given suffix; `bitrateMatch` scans all start positions in order.
def matchBitrateAt (cs : List Char) : Option String :=
  if ("bitrate=".toList).isPrefixOf cs then
    let r1 := (cs.drop 8).dropWhile (fun c => c.isWhitespace)
    let ds := r1.takeWhile (fun c => c.isDigit)
    let r2 := r1.dropWhile (fun c => c.isDigit)
    if ds.isEmpty then none
    else
      let nr : List Char × List Char :=
        match r2 with
        | '.' :: r3 =>
          let fs := r3.takeWhile (fun c => c.isDigit)
          if fs.isEmpty then (ds, r2)
          else (ds ++ '.' :: fs, r3.dropWhile (fun c => c.isDigit))
        | _ => (ds, r2)
      let r4 := nr.2.dropWhile (fun c => c.isWhitespace)
      if ("kbits/s".toList).isPrefixOf r4 then some (String.mk nr.1) else none
  else none

def bitrateMatch (message : String) : Option String :=
  (tailsL message.toList).findSome? matchBitrateAt

-- Events the ffmpeg engine emits during exec, consumed by the handlers
-- attached in ensureFFmpeg.
inductive EngineEmission where
  | progressEvt (value : ℚ) (time : ℚ)
  | logEvt (message : String)

-- this.ffmpeg.on('progress', ...) and this.ffmpeg.on('log', ...):
-- the progress handler forwards the engine value into the converting slot;
-- the log handler, on a bitrate match, re-emits the current converting value
-- with the bitrate as detail.
def stepEmission (s : ProcState) (e : EngineEmission) : ProcState × List Callback :=
  match e with
  | EngineEmission.progressEvt v t =>
    let r := updateProgress s ProcessStage.converting v
      (some { stage := some "Processing audio"
              duration := if t = 0 then none else some (((round (t * 100) : ℤ) : ℚ) / 100) })
    (r.1, [r.2])
  | EngineEmission.logEvt m =>
    match bitrateMatch m with
    | some b =>
      let r := updateProgress s ProcessStage.converting s.progress.converting
        (some { stage := some "Processing audio", bitrate := some (b ++ " kbps") })
      (r.1, [r.2])
    | none => (s, [])

def runEmissions : ProcState → List EngineEmission → ProcState × List Callback
  | s, [] => (s, [])
  | s, e :: es =>
    ((runEmissions (stepEmission s e).1 es).1,
      (stepEmission s e).2 ++ (runEmissions (stepEmission s e).1 es).2)

-- Outcome of this.ffmpeg.load(...), supplied by the environment.
inductive InitOutcome where
  | success
  | failure (msg : String)

-- catch block of ensureFFmpeg.
def initCatch (msg : String) : String :=
  if containsSub msg "aborted" then "Operation cancelled"
  else if containsSub msg "failed to fetch" then
    "Failed to load audio processing components. Please check your internet connection."
  else "Failed to initialize audio processing. Please try again."

-- private async ensureFFmpeg(): reuse when initialized, otherwise create a
-- fresh engine, attach handlers, and load the runtime components.
def ensureFFmpeg (s : ProcState) (outcome : InitOutcome) :
    Except String Unit × ProcState × List Event :=
  if s.initialized then (Except.ok (), s, [])
  else
    match outcome with
    | InitOutcome.success => (Except.ok (), { s with initialized := true }, [Event.load])
    | InitOutcome.failure msg => (Except.error (initCatch msg), s, [Event.load])

structure AudioFile where
  name : String
  data : List Nat

-- audioFile.name.substring(audioFile.name.lastIndexOf('.')) — with no dot,
-- lastIndexOf is -1 and substring clamps to 0, i.e. the whole name.
def extOf (name : String) : String :=
  let cs := name.toList
  match cs.reverse.findIdx? (fun c => c = '.') with
  | none => name
  | some k => String.mk (cs.drop (cs.length - 1 - k))

def execArgs (inputFileName outputFileName : String) : List String :=
  ["-i", inputFileName, "-ar", "16000", "-ac", "1", "-c:a", "pcm_s16le",
   "-progress", "pipe:1", outputFileName]

-- Environment of one convertToWav call: engine initialization outcome, the
-- emissions the engine produces during exec, whether exec and readFile
-- throw (with which message), and the bytes readFile returns.
structure ConvertEnv where
  init : InitOutcome
  execEmissions : List EngineEmission
  execOutcome : Option String
  readOutcome : Option String
  outputData : List Nat

-- catch block of convertToWav: a prior 'Operation cancelled' is rethrown
-- unchanged, everything else is wrapped.
def convertCatch (msg : String) : String :=
  if msg = "Operation cancelled" then msg
  else "Failed to convert audio: " ++ msg

-- async convertToWav(audioFile): assign a FRESH AbortController, ensure the
-- engine, check the (fresh) signal, write the input under the fixed
-- temporary name, exec, read the result back, and delete both temporaries.
-- The two rm calls sit on the straight-line success path after readFile;
-- there is no finally block.
def convertToWav (s : ProcState) (audioFile : AudioFile) (env : ConvertEnv) :
    RunOut (List Nat) :=
  let s0 : ProcState := { s with abortController := some freshController }
  match ensureFFmpeg s0 env.init with
  | (Except.error msg, s1, evs) =>
    { result := Except.error (convertCatch msg), state := s1, events := evs, callbacks := [] }
  | (Except.ok _, s1, evs) =>
    if signalAborted s1.abortController then
      { result := Except.error (convertCatch "Operation cancelled"), state := s1,
        events := evs, callbacks := [] }
    else
      let inputFileName := "input" ++ extOf audioFile.name
      let outputFileName := "output.wav"
      let evs1 := evs ++ [Event.writeFile inputFileName]
      let es := runEmissions s1 env.execEmissions
      let evs2 := evs1 ++ [Event.execTranscode (execArgs inputFileName outputFileName)]
      match env.execOutcome with
      | some msg =>
        { result := Except.error (convertCatch msg), state := es.1,
          events := evs2, callbacks := es.2 }
      | none =>
        let evs3 := evs2 ++ [Event.readFile outputFileName]
        match env.readOutcome with
        | some msg =>
          { result := Except.error (convertCatch msg), state := es.1,
            events := evs3, callbacks := es.2 }
        | none =>
          { result := Except.ok env.outputData, state := es.1,
            events := evs3 ++ [Event.rmFile inputFileName, Event.rmFile outputFileName],
            callbacks := es.2 }

-- The credential message used by both transcribeAudio and segmentByTopics.
def authErrorMsg : String :=
  "Invalid or missing OpenAI API key. Please check your environment variables."

-- catch block of transcribeAudio.
def transcribeCatch (msg : String) : String :=
  if containsSub msg "API key" then authErrorMsg
  else "Failed to transcribe audio: " ++ msg

-- async transcribeAudio(audioBlob): early return on a signaled token, set
-- transcribing to 0.1, issue the service call, set transcribing to 1 on
-- success; failures are inspected for credential wording in the catch.
def transcribeAudio (s : ProcState) (call : Except String String) : RunOut String :=
  if signalAborted s.abortController then
    { result := Except.error "Operation cancelled", state := s, events := [], callbacks := [] }
  else
    let r1 := updateProgress s ProcessStage.transcribing (1/10) none
    match call with
    | Except.ok text =>
      let r2 := updateProgress r1.1 ProcessStage.transcribing 1 none
      { result := Except.ok text, state := r2.1,
        events := [Event.netTranscribe "whisper-1" "auto"], callbacks := [r1.2, r2.2] }
    | Except.error msg =>
      { result := Except.error (transcribeCatch msg), state := r1.1,
        events := [Event.netTranscribe "whisper-1" "auto"], callbacks := [r1.2] }

-- JSON values, for the result of JSON.parse on the analysis payload.
inductive Json where
  | null
  | bool (b : Bool)
  | num (q : ℚ)
  | str (s : String)
  | arr (elems : List Json)
  | obj (fields : List (String × Json))

-- Outcome of JSON.parse(response.choices[0].message.content): either the
-- parsed value or a SyntaxError carrying the JS engine message.
inductive ParseOutcome where
  | parsed (j : Json)
  | unparsable (msg : String)

-- catch block of segmentByTopics.
def analyzeCatch (msg : String) : String :=
  if containsSub msg "API key" then authErrorMsg
  else "Failed to analyze transcription: " ++ msg

def systemPrompt : String :=
  "You are a meeting minutes expert. Analyze the transcription and segment it into topics, identifying action items and key points. Support both English and Spanish content."

def userPrompt (transcription : String) : String :=
  "Please analyze this meeting transcription and return a JSON with topics, key points, and action items: " ++ transcription

-- async segmentByTopics(transcription): early return on a signaled token,
-- set analyzing to 0.1, issue the service call, set analyzing to 1, then
-- JSON.parse the content.  Note the order: the slot reaches 1 before the
-- parse, so a parse failure still leaves analyzing at 1, and its SyntaxError
-- lands in the same catch as every other failure of the stage.
def segmentByTopics (s : ProcState) (transcription : String)
    (call : Except String ParseOutcome) : RunOut Json :=
  if signalAborted s.abortController then
    { result := Except.error "Operation cancelled", state := s, events := [], callbacks := [] }
  else
    let r1 := updateProgress s ProcessStage.analyzing (1/10) none
    let evs := [Event.netAnalyze "gpt-4" systemPrompt (userPrompt transcription)]
    match call with
    | Except.error msg =>
      { result := Except.error (analyzeCatch msg), state := r1.1,
        events := evs, callbacks := [r1.2] }
    | Except.ok po =>
      let r2 := updateProgress r1.1 ProcessStage.analyzing 1 none
      match po with
      | ParseOutcome.parsed j =>
        { result := Except.ok j, state := r2.1, events := evs, callbacks := [r1.2, r2.2] }
      | ParseOutcome.unparsable msg =>
        { result := Except.error (analyzeCatch msg), state := r2.1,
          events := evs, callbacks := [r1.2, r2.2] }

-- All three slots of the record lie in [0,1].
def InRange (p : ProcessingProgress) : Prop :=
  0 ≤ p.converting ∧ p.converting ≤ 1 ∧ 0 ≤ p.transcribing ∧ p.transcribing ≤ 1 ∧
    0 ≤ p.analyzing ∧ p.analyzing ≤ 1

instance (p : ProcessingProgress) : Decidable (InRange p) := by
  unfold InRange; infer_instance

def Event.isRm : Event → Bool
  | Event.rmFile _ => true
  | _ => false

-- The clamped values the progress handler would store for a list of engine
-- emissions (log lines contribute no new value).
def clampedReports : List EngineEmission → List ℚ
  | [] => []
  | EngineEmission.progressEvt v _ :: es => clamp01 v :: clampedReports es
  | EngineEmission.logEvt _ :: es => clampedReports es

-- The converting slot of each emitted snapshot.
def convertingVals (cbs : List Callback) : List ℚ :=
  cbs.map (fun cb => cb.snapshot.converting)

-- The Minutes shape the consumer expects (from the Minutes interface in
-- src/App.tsx): an object with a topics array whose entries carry a string
-- title and string arrays keyPoints and actionItems.
def isStringJson : Json → Bool
  | Json.str _ => true
  | _ => false

def isStringArrayJson : Json → Bool
  | Json.arr xs => xs.all isStringJson
  | _ => false

def isTopicJson : Json → Bool
  | Json.obj fs =>
      (fs.any fun f => f.1 == "title" && isStringJson f.2) &&
      (fs.any fun f => f.1 == "keyPoints" && isStringArrayJson f.2) &&
      (fs.any fun f => f.1 == "actionItems" && isStringArrayJson f.2)
  | _ => false

def hasMinutesShape : Json → Bool
  | Json.obj fs =>
      fs.any fun f =>
        f.1 == "topics" &&
          (match f.2 with
           | Json.arr ts => ts.all isTopicJson
           | _ => false)
  | _ => false

-- Concrete inputs used by the closed counterexamples and witnesses.
def fileA : AudioFile := { name := "a.mp3", data := [0] }

def benignEnv : ConvertEnv :=
  { init := InitOutcome.success, execEmissions := [], execOutcome := none,
    readOutcome := none, outputData := [1, 2, 3] }

-- Engine initialization rejects with the given message.
def initFailEnv (msg : String) : ConvertEnv :=
  { init := InitOutcome.failure msg, execEmissions := [], execOutcome := none,
    readOutcome := none, outputData := [] }

-- The transcode call rejects with the given message.
def execFailEnv (msg : String) : ConvertEnv :=
  { init := InitOutcome.success, execEmissions := [], execOutcome := some msg,
    readOutcome := none, outputData := [] }

-- The engine reports 0.5 and then 0.3 — both already inside [0,1].
def decreasingEnv : ConvertEnv :=
  { init := InitOutcome.success,
    execEmissions := [EngineEmission.progressEvt (1/2) 0, EngineEmission.progressEvt (3/10) 0],
    execOutcome := none, readOutcome := none, outputData := [] }

-- An ffmpeg log line carrying a bitrate annotation.
def bitrateLogLine : String :=
  "size=    1024kB time=00:00:05.00 bitrate= 128.5 kbits/s speed=1x"

-- The engine reports non-decreasing values, with a bitrate log line between.
def increasingEnv : ConvertEnv :=
  { init := InitOutcome.success,
    execEmissions := [EngineEmission.progressEvt (3/10) 0,
                      EngineEmission.logEvt bitrateLogLine,
                      EngineEmission.progressEvt (7/10) 0],
    execOutcome := none, readOutcome := none, outputData := [] }

-- ### Basic lemmas about the progress record

theorem clamp01_nonneg (v : ℚ) : 0 ≤ clamp01 v := by
  unfold clamp01 ratMin ratMax
  split_ifs
  all_goals linarith

theorem clamp01_le_one (v : ℚ) : clamp01 v ≤ 1 := by
  unfold clamp01 ratMin ratMax
  split_ifs
  all_goals linarith

theorem clamp01_eq_self {v : ℚ} (h0 : 0 ≤ v) (h1 : v ≤ 1) : clamp01 v = v := by
  unfold clamp01 ratMin ratMax
  split_ifs
  all_goals linarith

theorem inRange_set (p : ProcessingProgress) (st : ProcessStage) (x : ℚ)
    (h : InRange p) (hx0 : 0 ≤ x) (hx1 : x ≤ 1) : InRange (p.set st x) := by
  obtain ⟨a1, a2, b1, b2, c1, c2⟩ := h
  cases st
  · exact ⟨hx0, hx1, b1, b2, c1, c2⟩
  · exact ⟨a1, a2, hx0, hx1, c1, c2⟩
  · exact ⟨a1, a2, b1, b2, hx0, hx1⟩

-- ### Lemmas about the engine event handlers

theorem stepEmission_initialized (s : ProcState) (e : EngineEmission) :
    (stepEmission s e).1.initialized = s.initialized := by
  cases e with
  | progressEvt v t => rfl
  | logEvt m => cases hbm : bitrateMatch m <;> simp [stepEmission, hbm, updateProgress]

theorem stepEmission_abortController (s : ProcState) (e : EngineEmission) :
    (stepEmission s e).1.abortController = s.abortController := by
  cases e with
  | progressEvt v t => rfl
  | logEvt m => cases hbm : bitrateMatch m <;> simp [stepEmission, hbm, updateProgress]

theorem runEmissions_initialized (es : List EngineEmission) (s : ProcState) :
    (runEmissions s es).1.initialized = s.initialized := by
  induction es generalizing s with
  | nil => rfl
  | cons e es ih =>
    simp only [runEmissions]
    rw [ih, stepEmission_initialized]

theorem runEmissions_abortController (es : List EngineEmission) (s : ProcState) :
    (runEmissions s es).1.abortController = s.abortController := by
  induction es generalizing s with
  | nil => rfl
  | cons e es ih =>
    simp only [runEmissions]
    rw [ih, stepEmission_abortController]

-- The log handler with a bitrate match re-emits the current record unchanged
-- (the stored converting value is already clamped, so re-clamping fixes it).
theorem logStep_emits (s : ProcState) (m b : String) (hm : bitrateMatch m = some b)
    (h0 : 0 ≤ s.progress.converting) (h1 : s.progress.converting ≤ 1) :
    stepEmission s (EngineEmission.logEvt m)
      = (s, [{ stage := ProcessStage.converting, snapshot := s.progress,
               details := some { bitrate := some (b ++ " kbps"),
                                 stage := some "Processing audio" } }]) := by
  simp [stepEmission, hm, updateProgress, clamp01_eq_self h0 h1]
  constructor
  · show ({ s with progress := s.progress.set ProcessStage.converting s.progress.converting } : ProcState) = s
    rfl
  · show s.progress.set ProcessStage.converting s.progress.converting = s.progress
    rfl

theorem stepEmission_inRange (s : ProcState) (e : EngineEmission)
    (h : InRange s.progress) :
    InRange (stepEmission s e).1.progress ∧
      ∀ cb ∈ (stepEmission s e).2, InRange cb.snapshot := by
  cases e with
  | progressEvt v t =>
    refine ⟨?_, ?_⟩
    · exact inRange_set _ _ _ h (clamp01_nonneg v) (clamp01_le_one v)
    · intro cb hcb
      simp [stepEmission, updateProgress] at hcb
      subst hcb
      exact inRange_set _ _ _ h (clamp01_nonneg v) (clamp01_le_one v)
  | logEvt m =>
    cases hbm : bitrateMatch m with
    | none =>
      refine ⟨by simpa [stepEmission, hbm] using h, ?_⟩
      intro cb hcb
      simp [stepEmission, hbm] at hcb
    | some b =>
      refine ⟨?_, ?_⟩
      · simpa [stepEmission, hbm, updateProgress] using
          inRange_set _ _ _ h (clamp01_nonneg _) (clamp01_le_one _)
      · intro cb hcb
        simp [stepEmission, hbm, updateProgress] at hcb
        subst hcb
        exact inRange_set _ _ _ h (clamp01_nonneg _) (clamp01_le_one _)

theorem runEmissions_inRange (es : List EngineEmission) (s : ProcState)
    (h : InRange s.progress) :
    InRange (runEmissions s es).1.progress ∧
      ∀ cb ∈ (runEmissions s es).2, InRange cb.snapshot := by
  induction es generalizing s with
  | nil => exact ⟨h, by intro cb hcb; simp [runEmissions] at hcb⟩
  | cons e es ih =>
    obtain ⟨hs1, hcbs⟩ := stepEmission_inRange s e h
    obtain ⟨hs2, hrest⟩ := ih (stepEmission s e).1 hs1
    refine ⟨hs2, ?_⟩
    intro cb hcb
    simp only [runEmissions, List.mem_append] at hcb
    rcases hcb with hcb | hcb
    · exact hcbs cb hcb
    · exact hrest cb hcb

-- Monotonicity of the emitted converting values holds exactly when the
-- engine's clamped reports are themselves non-decreasing (starting from the
-- current slot value): the handlers store the reports verbatim.
theorem runEmissions_chain (es : List EngineEmission) (s : ProcState)
    (h0 : 0 ≤ s.progress.converting) (h1 : s.progress.converting ≤ 1)
    (hc : List.Chain' (· ≤ ·) (s.progress.converting :: clampedReports es)) :
    List.Chain' (· ≤ ·)
      (s.progress.converting :: convertingVals (runEmissions s es).2) := by
  induction es generalizing s with
  | nil => simp [runEmissions, convertingVals]
  | cons e es ih =>
    cases e with
    | progressEvt v t =>
      have hstate : (stepEmission s (EngineEmission.progressEvt v t)).1.progress.converting
          = clamp01 v := rfl
      have hcbs : List.map (fun cb => cb.snapshot.converting)
          (stepEmission s (EngineEmission.progressEvt v t)).2 = [clamp01 v] := rfl
      rw [clampedReports, List.chain'_cons] at hc
      obtain ⟨hle, hc'⟩ := hc
      have htail := ih (stepEmission s (EngineEmission.progressEvt v t)).1
        (by rw [hstate]; exact clamp01_nonneg v)
        (by rw [hstate]; exact clamp01_le_one v)
        (by rw [hstate]; exact hc')
      rw [hstate] at htail
      simp only [runEmissions, convertingVals, List.map_append] at htail ⊢
      rw [hcbs, List.singleton_append]
      exact List.chain'_cons.mpr ⟨hle, htail⟩
    | logEvt m =>
      cases hbm : bitrateMatch m with
      | none =>
        have hstep : stepEmission s (EngineEmission.logEvt m) = (s, []) := by
          simp [stepEmission, hbm]
        rw [clampedReports] at hc
        have htail := ih s h0 h1 hc
        simp only [runEmissions, convertingVals, List.map_append, hstep] at htail ⊢
        simpa using htail
      | some b =>
        have hstep := logStep_emits s m b hbm h0 h1
        rw [clampedReports] at hc
        have htail := ih s h0 h1 hc
        simp only [runEmissions, convertingVals, List.map_append, hstep] at htail ⊢
        exact List.chain'_cons.mpr ⟨le_refl _, htail⟩

-- ### Claim C1

/-- C1 counterexample: cancelling before convert begins does NOT make convert
fail with OperationCancelled, and engine work is performed: convertToWav
assigns a fresh AbortController at entry, so after cancel() on a fresh
processor the conversion succeeds and initializes, writes and transcodes. -/
theorem cancelBeforeConvert_counterexample :
    (convertToWav (cancel newProcessor) fileA benignEnv).result = Except.ok [1, 2, 3]
  ∧ Event.load ∈ (convertToWav (cancel newProcessor) fileA benignEnv).events
  ∧ Event.writeFile "input.mp3" ∈ (convertToWav (cancel newProcessor) fileA benignEnv).events
  ∧ Event.execTranscode (execArgs "input.mp3" "output.wav")
      ∈ (convertToWav (cancel newProcessor) fileA benignEnv).events := by
  exact ⟨rfl, by decide, by decide, by decide⟩

/-- C1 amended: the cancellation token is per convert call, not per instance:
cancel() clears the stored controller and marks the engine uninitialized, and
a subsequent convert() creates a fresh unsignaled token, so it proceeds
normally (re-initializing the engine); a subsequent transcribe() sees no
controller and also proceeds.  A cancelled processor is therefore reusable. -/
theorem cancelToken_perCall (s : ProcState) :
    (cancel s).abortController = none
  ∧ (cancel s).initialized = false
  ∧ (convertToWav (cancel s) fileA benignEnv).result = Except.ok benignEnv.outputData
  ∧ (transcribeAudio (cancel s) (Except.ok "text")).result = Except.ok "text" :=
  ⟨rfl, rfl, rfl, rfl⟩

-- ### Claim C2

/-- C2 counterexample: when the transcode call fails, convertToWav rethrows
from its catch without deleting either temporary working-storage entry — the
input file has been written but no rm event occurs (no finally block). -/
theorem cleanupSkipped_counterexample :
    (convertToWav newProcessor fileA (execFailEnv "boom")).result
        = Except.error "Failed to convert audio: boom"
  ∧ Event.writeFile "input.mp3" ∈ (convertToWav newProcessor fileA (execFailEnv "boom")).events
  ∧ (convertToWav newProcessor fileA (execFailEnv "boom")).events.all
      (fun e => ! e.isRm) = true := by
  exact ⟨rfl, by decide, by decide⟩

/-- C2 amended: cleanup runs only on the success path: whenever convertToWav
returns successfully, both temporary entries (the fixed-name input file and
output.wav) are deleted before it returns. -/
theorem cleanupOnSuccess (s : ProcState) (f : AudioFile) (env : ConvertEnv)
    (h : isOkE (convertToWav s f env).result = true) :
    Event.rmFile ("input" ++ extOf f.name) ∈ (convertToWav s f env).events
  ∧ Event.rmFile "output.wav" ∈ (convertToWav s f env).events := by
  obtain ⟨i, em, exo, rdo, od⟩ := env
  cases i <;> cases exo <;> cases rdo <;> cases hsi : s.initialized <;>
    simp [convertToWav, ensureFFmpeg, hsi, signalAborted, freshController, isOkE] at h ⊢

theorem cleanupOnSuccess_witness :
    Event.rmFile ("input" ++ extOf fileA.name)
        ∈ (convertToWav newProcessor fileA benignEnv).events
  ∧ Event.rmFile "output.wav" ∈ (convertToWav newProcessor fileA benignEnv).events :=
  cleanupOnSuccess newProcessor fileA benignEnv rfl

-- ### Claim C3

/-- C3 counterexample: monotonicity is not enforced.  With engine reports 0.5
then 0.3 (both already inside [0,1], so clamping is not involved), the
converting slot of the delivered snapshots decreases from 1/2 to 3/10. -/
theorem convertingMonotonicity_counterexample :
    convertingVals (convertToWav newProcessor fileA decreasingEnv).callbacks
        = [1/2, 3/10]
  ∧ ¬ ((1 : ℚ)/2 ≤ 3/10) := by
  constructor
  · norm_num [convertToWav, ensureFFmpeg, signalAborted, freshController, newProcessor,
      decreasingEnv, fileA, runEmissions, stepEmission, updateProgress,
      ProcessingProgress.set, clamp01, ratMin, ratMax, convertingVals]
  · norm_num

/-- C3 amended: every slot of every delivered snapshot lies in [0,1] (the
coordinator clamps each stored value), but a slot is monotonically
non-decreasing only when the engine's clamped reports are themselves
non-decreasing from the current slot value — updateProgress stores the
reports verbatim and never compares against the previous value. -/
theorem progressClampedMono (s : ProcState) (f : AudioFile) (env : ConvertEnv)
    (hin : InRange s.progress) :
    (∀ cb ∈ (convertToWav s f env).callbacks, InRange cb.snapshot)
  ∧ (List.Chain' (· ≤ ·) (s.progress.converting :: clampedReports env.execEmissions) →
      List.Chain' (· ≤ ·) (convertingVals (convertToWav s f env).callbacks)) := by
  obtain ⟨i, em, exo, rdo, od⟩ := env
  have h0 : 0 ≤ s.progress.converting := hin.1
  have h1 : s.progress.converting ≤ 1 := hin.2.1
  constructor
  · intro cb hcb
    cases i <;> cases exo <;> cases rdo <;> cases hsi : s.initialized <;>
      simp [convertToWav, ensureFFmpeg, hsi, signalAborted, freshController] at hcb <;>
      exact (runEmissions_inRange em
        { initialized := true, abortController := some { aborted := false },
          progress := s.progress } hin).2 cb hcb
  · intro hch
    cases i <;> cases exo <;> cases rdo <;> cases hsi : s.initialized <;>
      simp [convertToWav, ensureFFmpeg, hsi, signalAborted, freshController,
        convertingVals] <;>
      exact ((runEmissions_chain em
        { initialized := true, abortController := some { aborted := false },
          progress := s.progress } h0 h1 hch).tail)

theorem progressClampedMono_witness :
    InRange newProcessor.progress
  ∧ List.Chain' (· ≤ ·)
      (convertingVals (convertToWav newProcessor fileA increasingEnv).callbacks) :=
  ⟨by norm_num [InRange, newProcessor],
   (progressClampedMono newProcessor fileA increasingEnv
      (by norm_num [InRange, newProcessor])).2
     (by norm_num [clampedReports, increasingEnv, newProcessor, clamp01, ratMin, ratMax,
        List.chain'_cons])⟩

-- ### Claim C4

/-- C4 counterexample: with a missing/invalid credential the service call IS
attempted — the network event is in the trace — and the AuthenticationError
message arises from inspecting the failure of that attempted request, for
both transcribe and analyze. -/
theorem credentialPreflight_counterexample :
    (transcribeAudio newProcessor (Except.error "Incorrect API key provided")).result
        = Except.error authErrorMsg
  ∧ Event.netTranscribe "whisper-1" "auto"
      ∈ (transcribeAudio newProcessor (Except.error "Incorrect API key provided")).events
  ∧ (segmentByTopics newProcessor "t" (Except.error "Incorrect API key provided")).result
        = Except.error authErrorMsg
  ∧ Event.netAnalyze "gpt-4" systemPrompt (userPrompt "t")
      ∈ (segmentByTopics newProcessor "t" (Except.error "Incorrect API key provided")).events := by
  exact ⟨rfl, by decide, rfl, by decide⟩

/-- C4 amended: with a missing/invalid credential both stages fail with the
AuthenticationError message, but only AFTER attempting the service call: the
failure of the attempted request is caught and its message inspected for the
credential wording (includes "API key"); no pre-flight credential check is
performed inside these operations. -/
theorem credentialByCatch (s : ProcState) (t msg : String)
    (hk : containsSub msg "API key" = true)
    (hab : signalAborted s.abortController = false) :
    (transcribeAudio s (Except.error msg)).result = Except.error authErrorMsg
  ∧ Event.netTranscribe "whisper-1" "auto" ∈ (transcribeAudio s (Except.error msg)).events
  ∧ (segmentByTopics s t (Except.error msg)).result = Except.error authErrorMsg
  ∧ Event.netAnalyze "gpt-4" systemPrompt (userPrompt t)
      ∈ (segmentByTopics s t (Except.error msg)).events := by
  refine ⟨?_, ?_, ?_, ?_⟩ <;>
    simp [transcribeAudio, segmentByTopics, hab, transcribeCatch, analyzeCatch, hk]

theorem credentialByCatch_witness :
    (transcribeAudio newProcessor (Except.error "Incorrect API key provided: sk-none")).result
        = Except.error authErrorMsg
  ∧ Event.netTranscribe "whisper-1" "auto"
      ∈ (transcribeAudio newProcessor (Except.error "Incorrect API key provided: sk-none")).events
  ∧ (segmentByTopics newProcessor "hello" (Except.error "Incorrect API key provided: sk-none")).result
        = Except.error authErrorMsg
  ∧ Event.netAnalyze "gpt-4" systemPrompt (userPrompt "hello")
      ∈ (segmentByTopics newProcessor "hello" (Except.error "Incorrect API key provided: sk-none")).events :=
  credentialByCatch newProcessor "hello" "Incorrect API key provided: sk-none"
    (by decide) rfl

-- ### Claim C5

/-- C5 counterexample: an unparsable analysis payload is NOT surfaced through
a distinct MalformedResponseError — the SyntaxError of JSON.parse lands in
the same catch as every other failure of the stage and receives the same
generic AnalysisError wrapper, identical in form to a plain service failure. -/
theorem malformedResponse_counterexample :
    (segmentByTopics newProcessor "hello"
        (Except.ok (ParseOutcome.unparsable "Unexpected token o in JSON at position 1"))).result
      = Except.error "Failed to analyze transcription: Unexpected token o in JSON at position 1"
  ∧ (segmentByTopics newProcessor "hello" (Except.error "network down")).result
      = Except.error "Failed to analyze transcription: network down" := by
  exact ⟨rfl, rfl⟩

/-- C5 amended: a payload whose content fails to parse makes analyze fail
with the generic AnalysisError wrapper ("Failed to analyze transcription: "
plus the parse error message) — the same wrapper used for other external-call
failures; no distinct MalformedResponseError exists.  Moreover the analyzing
slot has already been driven to 1 before the parse is attempted. -/
theorem malformedWrappedAsAnalysisError (s : ProcState) (t m : String)
    (hab : signalAborted s.abortController = false)
    (hk : containsSub m "API key" = false) :
    (segmentByTopics s t (Except.ok (ParseOutcome.unparsable m))).result
        = Except.error ("Failed to analyze transcription: " ++ m)
  ∧ (segmentByTopics s t (Except.ok (ParseOutcome.unparsable m))).state.progress.analyzing
        = 1 := by
  constructor
  · simp [segmentByTopics, hab, analyzeCatch, hk]
  · have h1 : clamp01 1 = 1 := clamp01_eq_self (by norm_num) le_rfl
    simp [segmentByTopics, hab, updateProgress, ProcessingProgress.set, h1]

theorem malformedWrappedAsAnalysisError_witness :
    (segmentByTopics newProcessor "hello"
        (Except.ok (ParseOutcome.unparsable "Unexpected end of JSON input"))).result
      = Except.error ("Failed to analyze transcription: " ++ "Unexpected end of JSON input")
  ∧ (segmentByTopics newProcessor "hello"
        (Except.ok (ParseOutcome.unparsable "Unexpected end of JSON input"))).state.progress.analyzing
      = 1 :=
  malformedWrappedAsAnalysisError newProcessor "hello" "Unexpected end of JSON input"
    rfl (by decide)

-- ### Claim C6

/-- C6 counterexample: an abort-triggered failure of the transcode call (the
engine rejects an in-flight exec with "called FFmpeg.terminate()" when
cancel() terminates it) is wrapped as a ConversionError, not normalized to
OperationCancelled: the catch of convertToWav passes through only the exact
message "Operation cancelled". -/
theorem abortDuringExec_counterexample :
    (convertToWav newProcessor fileA (execFailEnv "called FFmpeg.terminate()")).result
        = Except.error "Failed to convert audio: called FFmpeg.terminate()"
  ∧ "Failed to convert audio: called FFmpeg.terminate()" ≠ "Operation cancelled" := by
  exact ⟨rfl, by decide⟩

/-- C6 amended: cancel() does leave the Engine Handle uninitialized, and an
abort-triggered failure is normalized to OperationCancelled only when it
interrupts engine initialization (the ensureFFmpeg catch maps any message
containing "aborted"); a failure of the transcode call itself is passed
through only when its message is exactly "Operation cancelled" and is
otherwise wrapped as a ConversionError. -/
theorem abortNormalizedOnlyInInit (s : ProcState) (msg : String) :
    (cancel s).initialized = false
  ∧ (containsSub msg "aborted" = true →
      (convertToWav (cancel s) fileA (initFailEnv msg)).result
        = Except.error "Operation cancelled")
  ∧ (msg ≠ "Operation cancelled" →
      (convertToWav (cancel s) fileA (execFailEnv msg)).result
        = Except.error ("Failed to convert audio: " ++ msg)) := by
  refine ⟨rfl, ?_, ?_⟩
  · intro hab
    simp [convertToWav, cancel, ensureFFmpeg, initFailEnv, initCatch, hab, convertCatch]
  · intro hne
    simp [convertToWav, cancel, ensureFFmpeg, execFailEnv, signalAborted, freshController,
      convertCatch, hne]

theorem abortNormalizedOnlyInInit_witness :
    (cancel newProcessor).initialized = false
  ∧ (convertToWav (cancel newProcessor) fileA (initFailEnv "fetch was aborted")).result
        = Except.error "Operation cancelled"
  ∧ (convertToWav (cancel newProcessor) fileA (execFailEnv "fetch was aborted")).result
        = Except.error ("Failed to convert audio: " ++ "fetch was aborted") :=
  ⟨(abortNormalizedOnlyInInit newProcessor "fetch was aborted").1,
   (abortNormalizedOnlyInInit newProcessor "fetch was aborted").2.1 (by decide),
   (abortNormalizedOnlyInInit newProcessor "fetch was aborted").2.2 (by decide)⟩

-- ### Claim C7

theorem convertToWav_state_initialized (s : ProcState) (f : AudioFile) (env : ConvertEnv)
    (h : isOkE (convertToWav s f env).result = true) :
    (convertToWav s f env).state.initialized = true := by
  obtain ⟨i, em, exo, rdo, od⟩ := env
  cases i <;> cases exo <;> cases rdo <;> cases hsi : s.initialized <;>
    simp [convertToWav, ensureFFmpeg, hsi, signalAborted, freshController, isOkE,
      runEmissions_initialized] at h ⊢

theorem convertToWav_no_load_of_initialized (s : ProcState) (f : AudioFile)
    (env : ConvertEnv) (hs : s.initialized = true) :
    Event.load ∉ (convertToWav s f env).events := by
  obtain ⟨i, em, exo, rdo, od⟩ := env
  cases i <;> cases exo <;> cases rdo <;>
    simp [convertToWav, ensureFFmpeg, hs, signalAborted, freshController]

/-- C7: the Engine Handle is initialized lazily and reused: a successful
convert leaves the handle initialized; any convert started on an
already-initialized handle performs no load; and a convert started on an
uninitialized handle that succeeds did perform the load.  In particular a
second convert after a prior successful run (with no intervening cancel)
performs no second initialization side effect. -/
theorem lazyInitOnce (s : ProcState) (f1 f2 : AudioFile) (env1 env2 : ConvertEnv)
    (h : isOkE (convertToWav s f1 env1).result = true) :
    (convertToWav s f1 env1).state.initialized = true
  ∧ Event.load ∉ (convertToWav (convertToWav s f1 env1).state f2 env2).events
  ∧ (s.initialized = false → Event.load ∈ (convertToWav s f1 env1).events) := by
  refine ⟨convertToWav_state_initialized s f1 env1 h, ?_, ?_⟩
  · exact convertToWav_no_load_of_initialized _ f2 env2
      (convertToWav_state_initialized s f1 env1 h)
  · intro hsi
    obtain ⟨i, em, exo, rdo, od⟩ := env1
    cases i <;> cases exo <;> cases rdo <;>
      simp [convertToWav, ensureFFmpeg, hsi, signalAborted, freshController, isOkE] at h ⊢

theorem lazyInitOnce_witness :
    (convertToWav newProcessor fileA benignEnv).state.initialized = true
  ∧ Event.load ∉
      (convertToWav (convertToWav newProcessor fileA benignEnv).state fileA benignEnv).events
  ∧ Event.load ∈ (convertToWav newProcessor fileA benignEnv).events :=
  ⟨(lazyInitOnce newProcessor fileA fileA benignEnv benignEnv rfl).1,
   (lazyInitOnce newProcessor fileA fileA benignEnv benignEnv rfl).2.1,
   (lazyInitOnce newProcessor fileA fileA benignEnv benignEnv rfl).2.2 rfl⟩

-- ### Claim C8

/-- C8: on a successful transcribe, the transcribing slot is reported exactly
twice — 0.1 just before the service call and exactly 1 just after success —
and both callbacks of the stage carry the transcribing stage name; the
analyzing slot behaves identically on a successful analyze. -/
theorem binaryStageProgress (s : ProcState) (t text : String) (j : Json)
    (hab : signalAborted s.abortController = false) :
    (transcribeAudio s (Except.ok text)).callbacks.map
        (fun cb => (cb.stage, cb.snapshot.transcribing))
      = [(ProcessStage.transcribing, 1/10), (ProcessStage.transcribing, 1)]
  ∧ (segmentByTopics s t (Except.ok (ParseOutcome.parsed j))).callbacks.map
        (fun cb => (cb.stage, cb.snapshot.analyzing))
      = [(ProcessStage.analyzing, 1/10), (ProcessStage.analyzing, 1)] := by
  have h01 : clamp01 (1/10) = 1/10 := clamp01_eq_self (by norm_num) (by norm_num)
  have h01i : clamp01 ((10 : ℚ)⁻¹) = (10 : ℚ)⁻¹ := clamp01_eq_self (by norm_num) (by norm_num)
  have h1 : clamp01 1 = 1 := clamp01_eq_self (by norm_num) le_rfl
  constructor <;>
    simp [transcribeAudio, segmentByTopics, hab, updateProgress, ProcessingProgress.set,
      h01, h01i, h1]

theorem binaryStageProgress_witness :
    (transcribeAudio newProcessor (Except.ok "text")).callbacks.map
        (fun cb => (cb.stage, cb.snapshot.transcribing))
      = [(ProcessStage.transcribing, 1/10), (ProcessStage.transcribing, 1)]
  ∧ (segmentByTopics newProcessor "t" (Except.ok (ParseOutcome.parsed Json.null))).callbacks.map
        (fun cb => (cb.stage, cb.snapshot.analyzing))
      = [(ProcessStage.analyzing, 1/10), (ProcessStage.analyzing, 1)] :=
  binaryStageProgress newProcessor "t" "text" Json.null rfl

-- ### Claim C9

/-- C9: each callback receives the snapshot of the record as it stands at
emission time (the spread copy), so later mutation of the coordinator record
never alters an already-delivered snapshot; and a bitrate annotation in the
log stream is surfaced as Stage Detail by re-emitting the CURRENT converting
value — the state is left entirely unchanged and the emitted converting value
equals the recorded one. -/
theorem snapshotAndBitrateDetail (s : ProcState) (st : ProcessStage) (v : ℚ)
    (d : Option ProcessingDetails) (m b : String)
    (hm : bitrateMatch m = some b) (hr : InRange s.progress) :
    (updateProgress s st v d).2.snapshot = (updateProgress s st v d).1.progress
  ∧ (stepEmission s (EngineEmission.logEvt m)).1 = s
  ∧ (stepEmission s (EngineEmission.logEvt m)).2
      = [{ stage := ProcessStage.converting, snapshot := s.progress,
           details := some { bitrate := some (b ++ " kbps"),
                             stage := some "Processing audio" } }] := by
  have h := logStep_emits s m b hm hr.1 hr.2.1
  exact ⟨rfl, by rw [h], by rw [h]⟩

theorem snapshotAndBitrateDetail_witness :
    (updateProgress newProcessor ProcessStage.converting (1/2) none).2.snapshot
        = (updateProgress newProcessor ProcessStage.converting (1/2) none).1.progress
  ∧ (stepEmission newProcessor (EngineEmission.logEvt bitrateLogLine)).1 = newProcessor
  ∧ (stepEmission newProcessor (EngineEmission.logEvt bitrateLogLine)).2
      = [{ stage := ProcessStage.converting, snapshot := newProcessor.progress,
           details := some { bitrate := some ("128.5" ++ " kbps"),
                             stage := some "Processing audio" } }] :=
  snapshotAndBitrateDetail newProcessor ProcessStage.converting (1/2) none
    bitrateLogLine "128.5" rfl (by norm_num [InRange, newProcessor])

-- ### Claim C10

/-- C10: analyze performs no structural validation and no precondition check:
whenever the payload content parses as JSON, the parsed value — whatever its
shape — is returned as the minutes document, for any transcript including the
empty one. -/
theorem analyzeNoValidation (s : ProcState) (t : String) (j : Json)
    (hab : signalAborted s.abortController = false) :
    (segmentByTopics s t (Except.ok (ParseOutcome.parsed j))).result = Except.ok j := by
  simp [segmentByTopics, hab]

theorem analyzeNoValidation_witness :
    hasMinutesShape (Json.obj []) = false
  ∧ (segmentByTopics newProcessor "" (Except.ok (ParseOutcome.parsed (Json.obj [])))).result
      = Except.ok (Json.obj []) :=
  ⟨rfl, analyzeNoValidation newProcessor "" (Json.obj []) rfl⟩
